import Mathlib

/-!
Verification development for the request-admission layer of the
ddelange/serving repository: the admission controller ("Breaker", a
bounded waiting room composed with a resizable concurrency semaphore)
and the HTTP middleware ("ProxyHandler") that wraps an inner handler
with it.

The production files pkg/queue/breaker.go and pkg/queue/handler.go are
not part of the sampled sources (only their test suite
pkg/queue/handler_test.go and the header constants in
pkg/activator/activator.go are), so the operations below are modelled
from the specification's own algorithm descriptions (spec.md sections
4.1 to 4.4) and checked against the behaviour pinned down by the tests.
Blocking (semaphore acquisition racing a context deadline) and abnormal
thunk completion are made explicit as oracle inputs, so every operation
is a pure function of the pre-state and those oracles.
-/

namespace Serving

/-- Name of the component, from src/pkg/activator/activator.go. -/
def activatorName : String := "activator"

/-- Header key for the revision name, from src/pkg/activator/activator.go. -/
def RevisionHeaderName : String := "Knative-Serving-Revision"

/-- Header key for the revision's namespace, from src/pkg/activator/activator.go. -/
def RevisionHeaderNamespace : String := "Knative-Serving-Namespace"

/-- Headers the activator uses to identify the revision, from
src/pkg/activator/activator.go; they are removed before reaching the
user container. -/
def RevisionHeaders : List String := [RevisionHeaderName, RevisionHeaderNamespace]

/-- Modelled from the spec: the "original host" forwarding header key of
the external networking package (netheader.OriginalHostKey), read and
then stripped by the proxy layer. -/
def originalHostKey : String := "K-Original-Host"

/-- Modelled from the spec: the "proxy provenance" header key of the
external networking package (netheader.ProxyKey), read only. -/
def proxyKey : String := "K-Proxy-Request"

/-- Modelled from the spec: the user-agent marker identifying
kubelet-style probes (netheader.KubeProbeUAPrefix). -/
def kubeProbeUA : String := "kube-probe/"

/-- HTTP headers as an association list of key/value pairs. -/
abbrev Headers := List (String × String)

/-- First value stored under a key, mirroring Go's Header.Get. -/
def getHeader (hs : Headers) (k : String) : Option String :=
  match hs with
  | [] => none
  | p :: t => if p.1 = k then some p.2 else getHeader t k

/-- Removal of every entry stored under a key, mirroring Go's Header.Del. -/
def removeHeader (hs : Headers) (k : String) : Headers :=
  match hs with
  | [] => []
  | p :: t => if p.1 = k then removeHeader t k else p :: removeHeader t k

/-- An HTTP request, reduced to the fields the admission layer reads:
the host and the header map. -/
structure Request where
  host : String
  headers : Headers
  deriving DecidableEq, Repr

/-- Test that the first character list begins with the second one. -/
def charsStart : List Char → List Char → Bool
  | _, [] => true
  | [], _ :: _ => false
  | c :: s, d :: t => c == d && charsStart s t

/-- Test that one string begins with another, mirroring Go's
strings.HasPrefix on the underlying character sequences. -/
def strStarts (s pat : String) : Bool := charsStart s.data pat.data

/-- Modelled from the spec: probe detection by the well-known user-agent
marker (netheader.IsKubeletProbe checks that the User-Agent header
starts with the kube-probe marker). -/
def isKubeletProbe (r : Request) : Bool :=
  strStarts ((getHeader r.headers "User-Agent").getD "") kubeProbeUA

/-- Modelled from the spec: host restoration (spec 4.4 step 2). If the
designated forwarding header carrying the original client-facing host is
present, overwrite the request's host with that value and remove the
header; the missing production code is the host-rewrite helper used by
pkg/queue/handler.go. -/
def restoreHost (r : Request) : Request :=
  match getHeader r.headers originalHostKey with
  | some h => { host := h, headers := removeHeader r.headers originalHostKey }
  | none => r

/-- Modelled from the spec: provenance marking (spec 4.4 step 3). A
request carrying the proxy provenance header is classified as having
arrived through the router's own proxy chain. -/
def isProxied (r : Request) : Bool :=
  (getHeader r.headers proxyKey).isSome

/-- Construction parameters of a Breaker (spec section 6). -/
structure BreakerParams where
  queueDepth : Nat
  maxConcurrency : Nat
  initialCapacity : Nat
  deriving DecidableEq, Repr

/-- Modelled from the spec: the Breaker's state (spec section 3), the
missing production type of pkg/queue/breaker.go. The first two fields
are immutable configuration; the last three are the only state carried
between requests. -/
structure Breaker where
  queueDepth : Nat
  maxConcurrency : Nat
  currentConcurrency : Nat
  waitingCount : Nat
  inFlightCount : Nat
  deriving DecidableEq, Repr

/-- Modelled from the spec: NewBreaker initializes the counters to zero
and the concurrency limit to the initial capacity. -/
def NewBreaker (p : BreakerParams) : Breaker :=
  { queueDepth := p.queueDepth
    maxConcurrency := p.maxConcurrency
    currentConcurrency := p.initialCapacity
    waitingCount := 0
    inFlightCount := 0 }

/-- Waiting-room entry effect: one more request holds a waiting slot. -/
def enterB (b : Breaker) : Breaker :=
  { b with waitingCount := b.waitingCount + 1 }

/-- Modelled from the spec: the non-blocking waiting-room gate (spec
4.1). Succeeds and increments the waiting count iff it is below the
queue depth; otherwise fails with no side effect. -/
def tryEnter (b : Breaker) : Bool × Breaker :=
  if b.waitingCount < b.queueDepth then (true, enterB b) else (false, b)

/-- Modelled from the spec: leaving the waiting room (spec 4.1)
decrements the waiting count. -/
def leave (b : Breaker) : Breaker :=
  { b with waitingCount := b.waitingCount - 1 }

/-- Semaphore acquisition effect on success: one more request in flight. -/
def semAcquired (b : Breaker) : Breaker :=
  { b with inFlightCount := b.inFlightCount + 1 }

/-- Modelled from the spec: semaphore release (spec 4.2) decrements the
in-flight count. -/
def semRelease (b : Breaker) : Breaker :=
  { b with inFlightCount := b.inFlightCount - 1 }

/-- Clamping of an integer to a closed interval, as written in spec 4.2. -/
def clamp (n lo hi : Int) : Int := min (max n lo) hi

/-- Modelled from the spec: updateCapacity (spec 4.2) sets the current
concurrency to the requested value clamped between one and the hard
maximum; counters of waiting and running requests are untouched. -/
def updateCapacity (b : Breaker) (n : Int) : Breaker :=
  { b with currentConcurrency := (clamp n 1 (b.maxConcurrency : Int)).toNat }

/-- Modelled from the spec: UpdateConcurrency exposes semaphore resizing
(spec 4.3). -/
def UpdateConcurrency (b : Breaker) (n : Int) : Breaker :=
  updateCapacity b n

/-- Context errors a caller's context can report. -/
inductive CtxError where
  | canceled
  | deadlineExceeded
  deriving DecidableEq, Repr

/-- Textual rendering of a context error, as Go's context package prints it. -/
def CtxError.text : CtxError → String
  | CtxError.canceled => "context canceled"
  | CtxError.deadlineExceeded => "context deadline exceeded"

/-- Oracle for the blocking semaphore stage: either a slot was acquired
first, or the caller's context was cancelled or timed out first. -/
inductive AcquireOutcome where
  | acquired
  | ctxDone (e : CtxError)
  deriving DecidableEq, Repr

/-- Oracle for the thunk's completion: normal return or abnormal
completion by panicking. -/
inductive ThunkOutcome where
  | normal
  | panicked
  deriving DecidableEq, Repr

/-- Boolean test of abnormal thunk completion. -/
def ThunkOutcome.isPanic : ThunkOutcome → Bool
  | ThunkOutcome.panicked => true
  | ThunkOutcome.normal => false

/-- Errors the Breaker can return from Maybe. -/
inductive BreakerError where
  | queueFull
  | ctxErr (e : CtxError)
  deriving DecidableEq, Repr

/-- Modelled from the spec: the text of ErrQueueFull (spec 4.4 and the
test suite pin the phrase carried by the 503 body). -/
def ErrQueueFull : String := "pending request queue full"

/-- Message text carried by a Breaker error. -/
def BreakerError.message : BreakerError → String
  | BreakerError.queueFull => ErrQueueFull
  | BreakerError.ctxErr e => e.text

/-- Observable outcome of one Maybe call: the error returned (none on
normal completion), whether the thunk was invoked, whether it completed
abnormally, and the Breaker state after the call (none iff the Breaker
reference was nil). -/
structure MaybeResult where
  err : Option BreakerError
  thunkInvoked : Bool
  panicked : Bool
  final : Option Breaker
  deriving DecidableEq, Repr

/-- Modelled from the spec: Breaker.Maybe (spec 4.3), the missing
production operation of pkg/queue/breaker.go. A nil Breaker invokes the
thunk directly with no gating. Otherwise: waiting-room tryEnter, on
failure ErrQueueFull without invoking the thunk; on success the blocking
acquire resolves by the oracle, cancellation releases the waiting slot
and returns the context's error without invoking the thunk; on acquire
success the waiting slot is released, the thunk runs, and the semaphore
slot is released unconditionally afterwards, even on a panic. -/
def Maybe : Option Breaker → AcquireOutcome → ThunkOutcome → MaybeResult
  | none, _, tk =>
    { err := none, thunkInvoked := true, panicked := tk.isPanic, final := none }
  | some b, acq, tk =>
    match tryEnter b with
    | (false, b0) =>
      { err := some BreakerError.queueFull, thunkInvoked := false,
        panicked := false, final := some b0 }
    | (true, b1) =>
      match acq with
      | AcquireOutcome.ctxDone e =>
        { err := some (BreakerError.ctxErr e), thunkInvoked := false,
          panicked := false, final := some (leave b1) }
      | AcquireOutcome.acquired =>
        { err := none, thunkInvoked := true, panicked := tk.isPanic,
          final := some (semRelease (leave (semAcquired b1))) }

/-- Response produced at the HTTP boundary: either the inner handler
wrote the response, or the middleware rejected the request with a status
and a plain-text body. -/
inductive HandlerResponse where
  | fromInner
  | rejected (status : Nat) (body : String)
  deriving DecidableEq, Repr

/-- Request statistics visible to the claims: the proxied-request counter. -/
structure ProxyStats where
  proxiedCount : Nat
  deriving DecidableEq, Repr

/-- Observable outcome of one ProxyHandler call: whether and with which
request the inner handler was invoked, the response, the Breaker state
afterwards, and the statistics afterwards. -/
structure ProxyOutcome where
  innerInvoked : Bool
  innerReq : Option Request
  response : HandlerResponse
  breaker : Option Breaker
  stats : ProxyStats
  deriving DecidableEq, Repr

/-- Modelled from the spec: ProxyHandler (spec 4.4), the missing
production middleware of pkg/queue/handler.go. Step 1 forwards probe
traffic directly to the inner handler, bypassing the Breaker. Otherwise
the host is restored from the forwarding header, the request is gated
through Maybe (ungated when no Breaker is supplied), Breaker errors are
translated into a 503 whose body carries the error text, and on
successful completion the proxied-request counter is incremented when
the provenance header is present. -/
def ProxyHandler (ob : Option Breaker) (stats : ProxyStats) (acq : AcquireOutcome)
    (tk : ThunkOutcome) (req : Request) : ProxyOutcome :=
  if isKubeletProbe req then
    { innerInvoked := true, innerReq := some req,
      response := HandlerResponse.fromInner, breaker := ob, stats := stats }
  else
    match (Maybe ob acq tk).err with
    | some e =>
      { innerInvoked := false, innerReq := none,
        response := HandlerResponse.rejected 503 (e.message ++ "\n"),
        breaker := (Maybe ob acq tk).final, stats := stats }
    | none =>
      { innerInvoked := true, innerReq := some (restoreHost req),
        response := HandlerResponse.fromInner,
        breaker := (Maybe ob acq tk).final,
        stats := if isProxied req && !tk.isPanic
                 then { proxiedCount := stats.proxiedCount + 1 }
                 else stats }

/-- Modelled from the spec: the activator strips the revision-identifying
headers before the request reaches the user container (doc comment of
RevisionHeaders in src/pkg/activator/activator.go); the stripping code
itself is not among the sampled sources. -/
def stripRevisionHeaders (r : Request) : Request :=
  { r with headers := removeHeader (removeHeader r.headers RevisionHeaderName)
                        RevisionHeaderNamespace }

/-- Containment of a phrase inside a body string. -/
def ContainsPhrase (body phrase : String) : Prop :=
  ∃ pre post : String, body = pre ++ phrase ++ post

/-- Rejection at the HTTP boundary with status 503 and a body containing
a given phrase. -/
def RejectedWith (o : ProxyOutcome) (phrase : String) : Prop :=
  ∃ body, o.response = HandlerResponse.rejected 503 body ∧ ContainsPhrase body phrase

/-- Modelled from the spec: the fine-grained events a Breaker state can
undergo under concurrent Maybe, UpdateConcurrency, acquire and release
activity (spec sections 4.1 to 4.3). A request enters the waiting room
only when there is room, graduates to running only when a concurrency
slot is free, may leave the waiting room on cancellation, and finishes
by releasing its concurrency slot; capacity updates may arrive at any
time. -/
inductive Step : Breaker → Breaker → Prop where
  | enter (b : Breaker) : b.waitingCount < b.queueDepth → Step b (enterB b)
  | graduate (b : Breaker) : 0 < b.waitingCount →
      b.inFlightCount < b.currentConcurrency → Step b (semAcquired (leave b))
  | cancelWait (b : Breaker) : 0 < b.waitingCount → Step b (leave b)
  | finish (b : Breaker) : 0 < b.inFlightCount → Step b (semRelease b)
  | update (b : Breaker) (n : Int) : Step b (updateCapacity b n)

/-- States a Breaker can reach from its construction under any
interleaving of the documented operations. -/
inductive Reachable (p : BreakerParams) : Breaker → Prop where
  | init : Reachable p (NewBreaker p)
  | step {b b' : Breaker} : Reachable p b → Step b b' → Reachable p b'

/-- Concrete saturated Breaker for the queue-full scenario: queue depth
one, with the single waiting slot already held. -/
def c1breaker : Breaker :=
  { queueDepth := 1, maxConcurrency := 1, currentConcurrency := 1,
    waitingCount := 1, inFlightCount := 0 }

/-- Concrete plain request with no headers. -/
def c1req : Request := { host := "localhost", headers := [] }

/-- Concrete empty statistics. -/
def c1stats : ProxyStats := { proxiedCount := 0 }

/-- Concrete Breaker with a free waiting slot and the only concurrency
slot occupied, for the timeout scenario. -/
def c2breaker : Breaker :=
  { queueDepth := 1, maxConcurrency := 1, currentConcurrency := 1,
    waitingCount := 0, inFlightCount := 1 }

/-- Concrete plain request for the timeout scenario. -/
def c2req : Request := { host := "localhost", headers := [] }

/-- Concrete statistics for the timeout scenario. -/
def c2stats : ProxyStats := { proxiedCount := 0 }

/-- Concrete construction parameters for the invariant claim. -/
def c4params : BreakerParams :=
  { queueDepth := 1, maxConcurrency := 10, initialCapacity := 3 }

/-- Concrete Breaker state reached from c4params in which three requests
run while the capacity has been lowered to one. -/
def c4bad : Breaker :=
  { queueDepth := 1, maxConcurrency := 10, currentConcurrency := 1,
    waitingCount := 0, inFlightCount := 3 }

/-- Concrete saturated Breaker for the probe-bypass scenario. -/
def c6breaker : Breaker :=
  { queueDepth := 1, maxConcurrency := 1, currentConcurrency := 1,
    waitingCount := 1, inFlightCount := 1 }

/-- Concrete probe request, marked by the kube-probe user agent. -/
def c6req : Request :=
  { host := "prob.in", headers := [("User-Agent", "kube-probe/1.29")] }

/-- Concrete statistics for the probe-bypass scenario. -/
def c6stats : ProxyStats := { proxiedCount := 0 }

/-- Concrete probe request that also carries the original-host
forwarding header. -/
def c7probe : Request :=
  { host := "nimporte.pas",
    headers := [("User-Agent", "kube-probe/1.29"),
                ("K-Original-Host", "a-better-host.com")] }

/-- Concrete non-probe request carrying the original-host forwarding
header. -/
def c7req : Request :=
  { host := "nimporte.pas", headers := [("K-Original-Host", "a-better-host.com")] }

/-- Request seen by the inner handler for c7req: host restored, header
stripped. -/
def c7inner : Request := { host := "a-better-host.com", headers := [] }

/-- Concrete statistics for the host-restoration scenario. -/
def c7stats : ProxyStats := { proxiedCount := 0 }

/-- Concrete probe request that also carries the proxy provenance
header. -/
def c8probe : Request :=
  { host := "example.com",
    headers := [("User-Agent", "kube-probe/1.29"), ("K-Proxy-Request", "activator")] }

/-- Concrete non-probe request carrying the proxy provenance header. -/
def c8req : Request :=
  { host := "example.com", headers := [("K-Proxy-Request", "activator")] }

/-- Concrete statistics for the provenance scenario. -/
def c8stats : ProxyStats := { proxiedCount := 0 }

/-- Removal of the proxy provenance header from a request, used to state
that the provenance classification never affects admission. -/
def removeProxyHeader (r : Request) : Request :=
  { r with headers := removeHeader r.headers proxyKey }

/-- Concrete Breaker for the capacity-update scenario. -/
def c9breaker : Breaker :=
  { queueDepth := 1, maxConcurrency := 10, currentConcurrency := 5,
    waitingCount := 0, inFlightCount := 2 }

/-- Concrete non-probe request carrying both revision-identifying
headers. -/
def c10req : Request :=
  { host := "example.com",
    headers := [("Knative-Serving-Revision", "rev"),
                ("Knative-Serving-Namespace", "ns")] }

/-- Request seen by the inner handler for c10req once both revision
headers are stripped. -/
def c10inner : Request := { host := "example.com", headers := [] }

/-- Concrete statistics for the revision-header scenario. -/
def c10stats : ProxyStats := { proxiedCount := 0 }

/-- Removal of a header key makes lookups of that key fail. -/
theorem getHeader_removeHeader_self (hs : Headers) (k : String) :
    getHeader (removeHeader hs k) k = none := by
  induction hs with
  | nil => rfl
  | cons p t ih =>
    by_cases h : p.1 = k
    · simp [removeHeader, h, ih]
    · simp [removeHeader, getHeader, h, ih]

/-- Removal of one header key leaves lookups of other keys unchanged. -/
theorem getHeader_removeHeader_ne (hs : Headers) (k j : String) (h : k ≠ j) :
    getHeader (removeHeader hs j) k = getHeader hs k := by
  induction hs with
  | nil => rfl
  | cons p t ih =>
    by_cases hp : p.1 = j
    · have hk : p.1 ≠ k := fun hh => h (by rw [← hh, hp])
      simp only [removeHeader, getHeader, if_pos hp, if_neg hk]
      exact ih
    · by_cases hk : p.1 = k
      · simp only [removeHeader, getHeader, if_neg hp, if_pos hk]
      · simp only [removeHeader, getHeader, if_neg hp, if_neg hk]
        exact ih

/-- Host restoration leaves headers other than the forwarding header
unchanged. -/
theorem getHeader_restoreHost (r : Request) (k : String) (h : k ≠ originalHostKey) :
    getHeader (restoreHost r).headers k = getHeader r.headers k := by
  unfold restoreHost
  cases hh : getHeader r.headers originalHostKey with
  | none => rfl
  | some v => simpa using getHeader_removeHeader_ne r.headers k originalHostKey h

/-- Host restoration on a request carrying the forwarding header
overwrites the host with the carried value and strips the header. -/
theorem restoreHost_spec (r : Request) (v : String)
    (h : getHeader r.headers originalHostKey = some v) :
    (restoreHost r).host = v ∧ getHeader (restoreHost r).headers originalHostKey = none := by
  unfold restoreHost
  rw [h]
  exact ⟨rfl, getHeader_removeHeader_self r.headers originalHostKey⟩

/-- Maybe on a full waiting room: queue-full error, thunk not invoked,
state unchanged. -/
theorem maybe_queueFull (b : Breaker) (acq : AcquireOutcome) (tk : ThunkOutcome)
    (hfull : b.queueDepth ≤ b.waitingCount) :
    Maybe (some b) acq tk =
      { err := some BreakerError.queueFull, thunkInvoked := false,
        panicked := false, final := some b } := by
  have h : ¬ b.waitingCount < b.queueDepth := Nat.not_lt.mpr hfull
  simp [Maybe, tryEnter, h]

/-- Maybe when the context resolves before an acquire: context error,
thunk not invoked, waiting-room slot released so the state is restored. -/
theorem maybe_ctxDone (b : Breaker) (e : CtxError) (tk : ThunkOutcome)
    (hroom : b.waitingCount < b.queueDepth) :
    Maybe (some b) (AcquireOutcome.ctxDone e) tk =
      { err := some (BreakerError.ctxErr e), thunkInvoked := false,
        panicked := false, final := some b } := by
  cases b with
  | mk qd mx cc wc ic =>
    simp only [Maybe, tryEnter] at *
    simp [hroom, leave, enterB]

/-- Maybe on a successful acquire: no error, thunk invoked, and both the
waiting-room and the semaphore slot are released afterwards, so the
state is restored. -/
theorem maybe_acquired (b : Breaker) (tk : ThunkOutcome)
    (hroom : b.waitingCount < b.queueDepth) :
    Maybe (some b) AcquireOutcome.acquired tk =
      { err := none, thunkInvoked := true, panicked := tk.isPanic,
        final := some b } := by
  cases b with
  | mk qd mx cc wc ic =>
    simp only [Maybe, tryEnter] at *
    simp [hroom, leave, enterB, semAcquired, semRelease]

/-- ProxyHandler forwards probe traffic directly to the inner handler. -/
theorem proxyHandler_probe (ob : Option Breaker) (stats : ProxyStats)
    (acq : AcquireOutcome) (tk : ThunkOutcome) (req : Request)
    (hp : isKubeletProbe req = true) :
    ProxyHandler ob stats acq tk req =
      { innerInvoked := true, innerReq := some req,
        response := HandlerResponse.fromInner, breaker := ob, stats := stats } := by
  simp [ProxyHandler, hp]

/-- ProxyHandler on a Breaker error: rejection with status 503 carrying
the error message, inner handler not invoked. -/
theorem proxyHandler_err (ob : Option Breaker) (stats : ProxyStats)
    (acq : AcquireOutcome) (tk : ThunkOutcome) (req : Request) (e : BreakerError)
    (hnp : isKubeletProbe req = false) (he : (Maybe ob acq tk).err = some e) :
    ProxyHandler ob stats acq tk req =
      { innerInvoked := false, innerReq := none,
        response := HandlerResponse.rejected 503 (e.message ++ "\n"),
        breaker := (Maybe ob acq tk).final, stats := stats } := by
  simp [ProxyHandler, hnp, he]

/-- ProxyHandler on successful gating: the inner handler is invoked with
the host-restored request, and the proxied-request counter is bumped
when the provenance header is present and the thunk completed normally. -/
theorem proxyHandler_ok (ob : Option Breaker) (stats : ProxyStats)
    (acq : AcquireOutcome) (tk : ThunkOutcome) (req : Request)
    (hnp : isKubeletProbe req = false) (he : (Maybe ob acq tk).err = none) :
    ProxyHandler ob stats acq tk req =
      { innerInvoked := true, innerReq := some (restoreHost req),
        response := HandlerResponse.fromInner,
        breaker := (Maybe ob acq tk).final,
        stats := if isProxied req && !tk.isPanic
                 then { proxiedCount := stats.proxiedCount + 1 }
                 else stats } := by
  simp [ProxyHandler, hnp, he]

/-- Request seen by the inner handler on a gated path is the
host-restored request. -/
theorem proxyInnerReq (ob : Option Breaker) (stats : ProxyStats)
    (acq : AcquireOutcome) (tk : ThunkOutcome) (req r : Request)
    (hnp : isKubeletProbe req = false)
    (hr : (ProxyHandler ob stats acq tk req).innerReq = some r) :
    r = restoreHost req := by
  cases he : (Maybe ob acq tk).err with
  | some e =>
    rw [proxyHandler_err ob stats acq tk req e hnp he] at hr
    exact absurd hr (by simp)
  | none =>
    rw [proxyHandler_ok ob stats acq tk req hnp he] at hr
    simpa using hr.symm

/-- C1: while the waiting room is full, Maybe returns ErrQueueFull
without ever invoking the thunk, and ProxyHandler translates this into
an HTTP 503 whose body contains the phrase "pending request queue full"
without invoking the inner handler. -/
theorem C1_queue_full_rejection (b : Breaker) (stats : ProxyStats)
    (acq : AcquireOutcome) (tk : ThunkOutcome) (req : Request)
    (hfull : b.queueDepth ≤ b.waitingCount) (hnp : isKubeletProbe req = false) :
    (Maybe (some b) acq tk).err = some BreakerError.queueFull ∧
    (Maybe (some b) acq tk).thunkInvoked = false ∧
    (ProxyHandler (some b) stats acq tk req).innerInvoked = false ∧
    RejectedWith (ProxyHandler (some b) stats acq tk req) ErrQueueFull := by
  have hm := maybe_queueFull b acq tk hfull
  have herr : (Maybe (some b) acq tk).err = some BreakerError.queueFull := by rw [hm]
  have hph := proxyHandler_err (some b) stats acq tk req BreakerError.queueFull hnp herr
  refine ⟨herr, by rw [hm], by rw [hph], ?_⟩
  exact ⟨BreakerError.queueFull.message ++ "\n", by rw [hph], "", "\n", rfl⟩

/-- C1 witness: a Breaker of queue depth one whose waiting slot is held
rejects a plain request with the queue-full 503. -/
theorem C1_queue_full_rejection_witness :
    (c1breaker.queueDepth ≤ c1breaker.waitingCount ∧ isKubeletProbe c1req = false) ∧
    ((Maybe (some c1breaker) AcquireOutcome.acquired ThunkOutcome.normal).err =
        some BreakerError.queueFull ∧
     (Maybe (some c1breaker) AcquireOutcome.acquired ThunkOutcome.normal).thunkInvoked = false ∧
     (ProxyHandler (some c1breaker) c1stats AcquireOutcome.acquired ThunkOutcome.normal
        c1req).innerInvoked = false ∧
     RejectedWith (ProxyHandler (some c1breaker) c1stats AcquireOutcome.acquired
        ThunkOutcome.normal c1req) ErrQueueFull) :=
  ⟨⟨by decide, by decide⟩,
   C1_queue_full_rejection c1breaker c1stats AcquireOutcome.acquired ThunkOutcome.normal
     c1req (by decide) (by decide)⟩

/-- C2: when the caller's context is cancelled or its deadline expires
before a concurrency slot is acquired, the waiting-room slot is
released, Maybe returns the context's error without invoking the thunk,
and ProxyHandler translates this into an HTTP 503 whose body contains
the context error's text without invoking the inner handler. -/
theorem C2_cancellation_rejection (b : Breaker) (stats : ProxyStats) (e : CtxError)
    (tk : ThunkOutcome) (req : Request)
    (hroom : b.waitingCount < b.queueDepth) (hnp : isKubeletProbe req = false) :
    (Maybe (some b) (AcquireOutcome.ctxDone e) tk).err = some (BreakerError.ctxErr e) ∧
    (Maybe (some b) (AcquireOutcome.ctxDone e) tk).thunkInvoked = false ∧
    (Maybe (some b) (AcquireOutcome.ctxDone e) tk).final = some b ∧
    (ProxyHandler (some b) stats (AcquireOutcome.ctxDone e) tk req).innerInvoked = false ∧
    RejectedWith (ProxyHandler (some b) stats (AcquireOutcome.ctxDone e) tk req) e.text := by
  have hm := maybe_ctxDone b e tk hroom
  have herr : (Maybe (some b) (AcquireOutcome.ctxDone e) tk).err =
      some (BreakerError.ctxErr e) := by rw [hm]
  have hph := proxyHandler_err (some b) stats (AcquireOutcome.ctxDone e) tk req
    (BreakerError.ctxErr e) hnp herr
  refine ⟨herr, by rw [hm], by rw [hm], by rw [hph], ?_⟩
  exact ⟨(BreakerError.ctxErr e).message ++ "\n", by rw [hph], "", "\n", rfl⟩

/-- C2 witness: with the only concurrency slot held and a free waiting
slot, a deadline expiry while queued yields the deadline-exceeded 503. -/
theorem C2_cancellation_rejection_witness :
    (c2breaker.waitingCount < c2breaker.queueDepth ∧ isKubeletProbe c2req = false) ∧
    ((Maybe (some c2breaker) (AcquireOutcome.ctxDone CtxError.deadlineExceeded)
        ThunkOutcome.normal).err = some (BreakerError.ctxErr CtxError.deadlineExceeded) ∧
     (Maybe (some c2breaker) (AcquireOutcome.ctxDone CtxError.deadlineExceeded)
        ThunkOutcome.normal).thunkInvoked = false ∧
     (Maybe (some c2breaker) (AcquireOutcome.ctxDone CtxError.deadlineExceeded)
        ThunkOutcome.normal).final = some c2breaker ∧
     (ProxyHandler (some c2breaker) c2stats
        (AcquireOutcome.ctxDone CtxError.deadlineExceeded) ThunkOutcome.normal
        c2req).innerInvoked = false ∧
     RejectedWith (ProxyHandler (some c2breaker) c2stats
        (AcquireOutcome.ctxDone CtxError.deadlineExceeded) ThunkOutcome.normal c2req)
        CtxError.deadlineExceeded.text) :=
  ⟨⟨by decide, by decide⟩,
   C2_cancellation_rejection c2breaker c2stats CtxError.deadlineExceeded
     ThunkOutcome.normal c2req (by decide) (by decide)⟩

/-- C3: every exit path of Maybe on a non-nil Breaker, including
queue-full rejection, cancellation while waiting, and normal or
panicking completion of the thunk, restores the Breaker state exactly:
no waiting-room or concurrency slot is left held. -/
theorem C3_slot_release (b : Breaker) (acq : AcquireOutcome) (tk : ThunkOutcome) :
    (Maybe (some b) acq tk).final = some b := by
  rcases Nat.lt_or_ge b.waitingCount b.queueDepth with hroom | hfull
  · cases acq with
    | acquired => rw [maybe_acquired b tk hroom]
    | ctxDone e => rw [maybe_ctxDone b e tk hroom]
  · rw [maybe_queueFull b acq tk hfull]

/-- C4 counterexample: from parameters of queue depth one, maximum ten
and initial capacity three, admitting three requests and then lowering
the capacity to one reaches a state with three in-flight requests and
current concurrency one, so inFlightCount exceeds currentConcurrency and
the admitted-or-waiting total exceeds queueDepth plus
currentConcurrency. -/
theorem C4_counterexample :
    Reachable c4params c4bad ∧
    c4bad.currentConcurrency < c4bad.inFlightCount ∧
    c4bad.queueDepth + c4bad.currentConcurrency < c4bad.waitingCount + c4bad.inFlightCount := by
  refine ⟨?_, by decide, by decide⟩
  have h0 : Reachable c4params (NewBreaker c4params) := Reachable.init
  have h1 := Reachable.step h0 (Step.enter (NewBreaker c4params) (by decide))
  have h2 := Reachable.step h1 (Step.graduate _ (by decide) (by decide))
  have h3 := Reachable.step h2 (Step.enter _ (by decide))
  have h4 := Reachable.step h3 (Step.graduate _ (by decide) (by decide))
  have h5 := Reachable.step h4 (Step.enter _ (by decide))
  have h6 := Reachable.step h5 (Step.graduate _ (by decide) (by decide))
  have h7 := Reachable.step h6 (Step.update _ 1)
  have he : updateCapacity (semAcquired (leave (enterB (semAcquired (leave (enterB
      (semAcquired (leave (enterB (NewBreaker c4params)))))))))) 1 = c4bad := by decide
  exact he ▸ h7

/-- C4 amended: in every reachable state, 0 ≤ waitingCount ≤ queueDepth
and 0 ≤ inFlightCount ≤ maxConcurrency hold, the current concurrency
stays between one and maxConcurrency, and the admitted-or-waiting total
never exceeds queueDepth plus maxConcurrency; the bound by
currentConcurrency fails only transiently after a capacity reduction
below the in-flight count, since running requests are not evicted. -/
theorem C4_amended_invariants (p : BreakerParams) (b : Breaker)
    (hmax : 1 ≤ p.maxConcurrency) (hlo : 1 ≤ p.initialCapacity)
    (hhi : p.initialCapacity ≤ p.maxConcurrency) (hr : Reachable p b) :
    b.waitingCount ≤ b.queueDepth ∧
    b.inFlightCount ≤ b.maxConcurrency ∧
    1 ≤ b.currentConcurrency ∧
    b.currentConcurrency ≤ b.maxConcurrency ∧
    b.waitingCount + b.inFlightCount ≤ b.queueDepth + b.maxConcurrency := by
  induction hr with
  | init =>
    simp only [NewBreaker]
    omega
  | step hb hs ih =>
    cases hs with
    | enter h =>
      simp only [enterB] at *
      omega
    | graduate h1 h2 =>
      simp only [semAcquired, leave] at *
      omega
    | cancelWait h =>
      simp only [leave] at *
      omega
    | finish h =>
      simp only [semRelease] at *
      omega
    | update n =>
      simp only [updateCapacity, clamp] at *
      omega

/-- C4 witness: the amended invariants hold at the freshly constructed
Breaker of the counterexample parameters. -/
theorem C4_amended_invariants_witness :
    (1 ≤ c4params.maxConcurrency ∧ 1 ≤ c4params.initialCapacity ∧
     c4params.initialCapacity ≤ c4params.maxConcurrency ∧
     Reachable c4params (NewBreaker c4params)) ∧
    ((NewBreaker c4params).waitingCount ≤ (NewBreaker c4params).queueDepth ∧
     (NewBreaker c4params).inFlightCount ≤ (NewBreaker c4params).maxConcurrency ∧
     1 ≤ (NewBreaker c4params).currentConcurrency ∧
     (NewBreaker c4params).currentConcurrency ≤ (NewBreaker c4params).maxConcurrency ∧
     (NewBreaker c4params).waitingCount + (NewBreaker c4params).inFlightCount ≤
       (NewBreaker c4params).queueDepth + (NewBreaker c4params).maxConcurrency) :=
  ⟨⟨by decide, by decide, by decide, Reachable.init⟩,
   C4_amended_invariants c4params (NewBreaker c4params) (by decide) (by decide)
     (by decide) Reachable.init⟩

/-- C5: Maybe on a nil Breaker invokes the thunk directly with no gating
and returns no error, and ProxyHandler constructed with no Breaker
always invokes the inner handler and never rejects a request. -/
theorem C5_nil_breaker_ungated (stats : ProxyStats) (acq : AcquireOutcome)
    (tk : ThunkOutcome) (req : Request) :
    (Maybe none acq tk).err = none ∧
    (Maybe none acq tk).thunkInvoked = true ∧
    (ProxyHandler none stats acq tk req).innerInvoked = true ∧
    (ProxyHandler none stats acq tk req).response = HandlerResponse.fromInner := by
  refine ⟨rfl, rfl, ?_, ?_⟩
  · cases hp : isKubeletProbe req with
    | true => rw [proxyHandler_probe none stats acq tk req hp]
    | false => rw [proxyHandler_ok none stats acq tk req hp rfl]
  · cases hp : isKubeletProbe req with
    | true => rw [proxyHandler_probe none stats acq tk req hp]
    | false => rw [proxyHandler_ok none stats acq tk req hp rfl]

/-- C6: a request recognized as an infrastructure health probe is
forwarded directly and unmodified to the inner handler, bypassing the
Breaker: its state is untouched, so a probe never occupies a slot and
never receives a queue-full rejection, even on a saturated Breaker. -/
theorem C6_probe_bypass (ob : Option Breaker) (stats : ProxyStats)
    (acq : AcquireOutcome) (tk : ThunkOutcome) (req : Request)
    (hp : isKubeletProbe req = true) :
    (ProxyHandler ob stats acq tk req).innerInvoked = true ∧
    (ProxyHandler ob stats acq tk req).innerReq = some req ∧
    (ProxyHandler ob stats acq tk req).response = HandlerResponse.fromInner ∧
    (ProxyHandler ob stats acq tk req).breaker = ob := by
  rw [proxyHandler_probe ob stats acq tk req hp]
  exact ⟨rfl, rfl, rfl, rfl⟩

/-- C6 witness: a probe request is forwarded even when both the waiting
room and the concurrency slot of the Breaker are fully occupied. -/
theorem C6_probe_bypass_witness :
    isKubeletProbe c6req = true ∧
    ((ProxyHandler (some c6breaker) c6stats AcquireOutcome.acquired ThunkOutcome.normal
        c6req).innerInvoked = true ∧
     (ProxyHandler (some c6breaker) c6stats AcquireOutcome.acquired ThunkOutcome.normal
        c6req).innerReq = some c6req ∧
     (ProxyHandler (some c6breaker) c6stats AcquireOutcome.acquired ThunkOutcome.normal
        c6req).response = HandlerResponse.fromInner ∧
     (ProxyHandler (some c6breaker) c6stats AcquireOutcome.acquired ThunkOutcome.normal
        c6req).breaker = some c6breaker) :=
  ⟨by decide,
   C6_probe_bypass (some c6breaker) c6stats AcquireOutcome.acquired ThunkOutcome.normal
     c6req (by decide)⟩

/-- C7 counterexample: a probe request carrying the original-host
forwarding header is passed to the inner handler unmodified, so the
inner handler sees the original host (not the header's value) and the
header is still present; the claim fails for probe traffic. -/
theorem C7_counterexample :
    getHeader c7probe.headers originalHostKey = some "a-better-host.com" ∧
    (ProxyHandler none c7stats AcquireOutcome.acquired ThunkOutcome.normal
       c7probe).innerReq = some c7probe ∧
    c7probe.host ≠ "a-better-host.com" := by decide

/-- C7 amended: for every non-probe request carrying the original-host
forwarding header that ProxyHandler passes to the inner handler, the
request's host as seen by the inner handler equals the header's value
and the header itself is absent from the request seen there. -/
theorem C7_amended_host_restoration (ob : Option Breaker) (stats : ProxyStats)
    (acq : AcquireOutcome) (tk : ThunkOutcome) (req r : Request) (v : String)
    (hnp : isKubeletProbe req = false)
    (hh : getHeader req.headers originalHostKey = some v)
    (hr : (ProxyHandler ob stats acq tk req).innerReq = some r) :
    r.host = v ∧ getHeader r.headers originalHostKey = none := by
  have he := proxyInnerReq ob stats acq tk req r hnp hr
  subst he
  exact restoreHost_spec req v hh

/-- C7 witness: a non-probe request with host "nimporte.pas" and the
forwarding header set reaches the inner handler with the restored host
and without the header. -/
theorem C7_amended_host_restoration_witness :
    (isKubeletProbe c7req = false ∧
     getHeader c7req.headers originalHostKey = some "a-better-host.com" ∧
     (ProxyHandler none c7stats AcquireOutcome.acquired ThunkOutcome.normal
        c7req).innerReq = some c7inner) ∧
    (c7inner.host = "a-better-host.com" ∧
     getHeader c7inner.headers originalHostKey = none) :=
  ⟨⟨by decide, by decide, by decide⟩,
   C7_amended_host_restoration none c7stats AcquireOutcome.acquired ThunkOutcome.normal
     c7req c7inner "a-better-host.com" (by decide) (by decide) (by decide)⟩

/-- C8 counterexample: a probe request carrying the proxy provenance
header is handled successfully, yet the proxied-request counter is not
incremented, because probe traffic bypasses the instrumentation; the
claim fails for probe traffic. -/
theorem C8_counterexample :
    isProxied c8probe = true ∧
    (ProxyHandler none c8stats AcquireOutcome.acquired ThunkOutcome.normal
       c8probe).innerInvoked = true ∧
    (ProxyHandler none c8stats AcquireOutcome.acquired ThunkOutcome.normal
       c8probe).response = HandlerResponse.fromInner ∧
    (ProxyHandler none c8stats AcquireOutcome.acquired ThunkOutcome.normal
       c8probe).stats.proxiedCount = c8stats.proxiedCount := by decide

/-- C8 amended: for every non-probe request, carrying the proxy
provenance header makes successful completion increment the
proxied-request counter by exactly one; for every request without the
header the counter is unchanged; and the classification never affects
the admission decision, since removing the header changes neither
whether the inner handler is invoked nor the response. -/
theorem C8_amended_provenance_stats (ob : Option Breaker) (stats : ProxyStats)
    (acq : AcquireOutcome) (tk : ThunkOutcome) (req : Request) :
    (isKubeletProbe req = false → isProxied req = true → tk = ThunkOutcome.normal →
      (ProxyHandler ob stats acq tk req).response = HandlerResponse.fromInner →
      (ProxyHandler ob stats acq tk req).stats.proxiedCount = stats.proxiedCount + 1) ∧
    (isProxied req = false →
      (ProxyHandler ob stats acq tk req).stats.proxiedCount = stats.proxiedCount) ∧
    (ProxyHandler ob stats acq tk req).innerInvoked =
      (ProxyHandler ob stats acq tk (removeProxyHeader req)).innerInvoked ∧
    (ProxyHandler ob stats acq tk req).response =
      (ProxyHandler ob stats acq tk (removeProxyHeader req)).response := by
  have hprobe : isKubeletProbe (removeProxyHeader req) = isKubeletProbe req := by
    unfold isKubeletProbe removeProxyHeader
    rw [getHeader_removeHeader_ne req.headers "User-Agent" proxyKey (by decide)]
  cases hp : isKubeletProbe req with
  | true =>
    rw [proxyHandler_probe ob stats acq tk req hp,
        proxyHandler_probe ob stats acq tk (removeProxyHeader req) (by rw [hprobe, hp])]
    exact ⟨fun hnp => absurd hnp (by decide),
           fun _ => rfl, rfl, rfl⟩
  | false =>
    cases he : (Maybe ob acq tk).err with
    | some e =>
      rw [proxyHandler_err ob stats acq tk req e hp he,
          proxyHandler_err ob stats acq tk (removeProxyHeader req) e (by rw [hprobe, hp]) he]
      refine ⟨fun _ _ _ hresp => absurd hresp (by simp), fun _ => rfl, rfl, rfl⟩
    | none =>
      rw [proxyHandler_ok ob stats acq tk req hp he,
          proxyHandler_ok ob stats acq tk (removeProxyHeader req) (by rw [hprobe, hp]) he]
      refine ⟨fun _ hprox htk _ => ?_, fun hnoprox => ?_, rfl, rfl⟩
      · simp [hprox, htk, ThunkOutcome.isPanic]
      · simp [hnoprox]

/-- C8 witness: a non-probe request carrying the provenance header,
handled successfully through a nil Breaker, bumps the proxied-request
counter from zero to one. -/
theorem C8_amended_provenance_stats_witness :
    (isKubeletProbe c8req = false ∧ isProxied c8req = true ∧
     (ProxyHandler none c8stats AcquireOutcome.acquired ThunkOutcome.normal
        c8req).response = HandlerResponse.fromInner) ∧
    (ProxyHandler none c8stats AcquireOutcome.acquired ThunkOutcome.normal
       c8req).stats.proxiedCount = c8stats.proxiedCount + 1 :=
  ⟨⟨by decide, by decide, by decide⟩,
   (C8_amended_provenance_stats none c8stats AcquireOutcome.acquired ThunkOutcome.normal
      c8req).1 (by decide) (by decide) rfl (by decide)⟩

/-- C9: UpdateConcurrency is updateCapacity, which sets the current
concurrency to clamp(n, 1, maxConcurrency); afterwards the current
concurrency lies between one and maxConcurrency, and the counters of
waiting and already-running requests are untouched, so the new capacity
constrains only subsequent acquirers. -/
theorem C9_update_concurrency_clamps (b : Breaker) (n : Int)
    (hmax : 1 ≤ b.maxConcurrency) :
    UpdateConcurrency b n = updateCapacity b n ∧
    ((updateCapacity b n).currentConcurrency : Int) = clamp n 1 (b.maxConcurrency : Int) ∧
    1 ≤ (updateCapacity b n).currentConcurrency ∧
    (updateCapacity b n).currentConcurrency ≤ b.maxConcurrency ∧
    (updateCapacity b n).waitingCount = b.waitingCount ∧
    (updateCapacity b n).inFlightCount = b.inFlightCount ∧
    (updateCapacity b n).maxConcurrency = b.maxConcurrency ∧
    (updateCapacity b n).queueDepth = b.queueDepth := by
  refine ⟨rfl, ?_, ?_, ?_, rfl, rfl, rfl, rfl⟩ <;>
    simp only [updateCapacity, clamp] <;> omega

/-- C9 witness: requesting capacity one hundred on a Breaker with hard
maximum ten clamps to ten and leaves the counters alone. -/
theorem C9_update_concurrency_clamps_witness :
    1 ≤ c9breaker.maxConcurrency ∧
    (UpdateConcurrency c9breaker 100 = updateCapacity c9breaker 100 ∧
     ((updateCapacity c9breaker 100).currentConcurrency : Int) =
        clamp 100 1 (c9breaker.maxConcurrency : Int) ∧
     1 ≤ (updateCapacity c9breaker 100).currentConcurrency ∧
     (updateCapacity c9breaker 100).currentConcurrency ≤ c9breaker.maxConcurrency ∧
     (updateCapacity c9breaker 100).waitingCount = c9breaker.waitingCount ∧
     (updateCapacity c9breaker 100).inFlightCount = c9breaker.inFlightCount ∧
     (updateCapacity c9breaker 100).maxConcurrency = c9breaker.maxConcurrency ∧
     (updateCapacity c9breaker 100).queueDepth = c9breaker.queueDepth) :=
  ⟨by decide, C9_update_concurrency_clamps c9breaker 100 (by decide)⟩

/-- C10: a non-probe request that went through the activator's
revision-header stripping and is then gated through ProxyHandler reaches
the inner handler without the Knative-Serving-Revision and
Knative-Serving-Namespace headers. -/
theorem C10_revision_headers_stripped (ob : Option Breaker) (stats : ProxyStats)
    (acq : AcquireOutcome) (tk : ThunkOutcome) (req r : Request)
    (hnp : isKubeletProbe (stripRevisionHeaders req) = false)
    (hr : (ProxyHandler ob stats acq tk (stripRevisionHeaders req)).innerReq = some r) :
    getHeader r.headers RevisionHeaderName = none ∧
    getHeader r.headers RevisionHeaderNamespace = none := by
  have he := proxyInnerReq ob stats acq tk (stripRevisionHeaders req) r hnp hr
  subst he
  constructor
  · rw [getHeader_restoreHost _ _ (by decide)]
    simp only [stripRevisionHeaders]
    rw [getHeader_removeHeader_ne _ _ _ (by decide)]
    exact getHeader_removeHeader_self _ _
  · rw [getHeader_restoreHost _ _ (by decide)]
    simp only [stripRevisionHeaders]
    exact getHeader_removeHeader_self _ _

/-- C10 witness: a request carrying both revision headers reaches the
inner handler with neither of them. -/
theorem C10_revision_headers_stripped_witness :
    (isKubeletProbe (stripRevisionHeaders c10req) = false ∧
     (ProxyHandler none c10stats AcquireOutcome.acquired ThunkOutcome.normal
        (stripRevisionHeaders c10req)).innerReq = some c10inner) ∧
    (getHeader c10inner.headers RevisionHeaderName = none ∧
     getHeader c10inner.headers RevisionHeaderNamespace = none) :=
  ⟨⟨by decide, by decide⟩,
   C10_revision_headers_stripped none c10stats AcquireOutcome.acquired ThunkOutcome.normal
     c10req c10inner (by decide) (by decide)⟩

end Serving
